import Mathlib

/-
Verification of the CollegeScoreCard CSV loaders.

Shallow embedding of the ingestion core of the repository:
  - src/load_ipeds.py      (clean_data, map_columns_by_year, batch_insert_location,
                            batch_insert_ipeds, load_ipeds_data)
  - src/load_scorecard.py  (clean_data, insert_data, load_scorecard_data)
  - src/load_ipeds_aki.py  (clean_data, insert_data)

CSV rows are association lists of strings; a Python dict .get is modelled by
the first matching key; Python None and SQL NULL are modelled by Option.
-/

namespace CollegeScorecard

/-- Python dict.get(col): first binding of the key, none when absent. -/
def pyGet (row : List (String × String)) (col : String) : Option String :=
  (row.find? (fun p => p.1 = col)).map (fun p => p.2)

/-- Sentinel list of load_ipeds.py clean_data, line 34:
value in ["-999", "", "-2", "NULL", None, "PrivacySuppressed"]. -/
def ipedsSentinels : List (Option String) :=
  [some "-999", some "", some "-2", some "NULL", none, some "PrivacySuppressed"]

/-- Sentinel list of load_scorecard.py clean_data, line 40 (same in
load_ipeds_aki.py line 40): value in ["-999", "", "NULL", None, "PrivacySuppressed"].
Note: no "-2" and no strip in these two versions. -/
def scorecardSentinels : List (Option String) :=
  [some "-999", some "", some "NULL", none, some "PrivacySuppressed"]

/-- Python str.strip(): drop whitespace characters from both ends. -/
def pyStrip (s : String) : String :=
  String.mk (((s.data.dropWhile Char.isWhitespace).reverse.dropWhile Char.isWhitespace).reverse)

/-- Body of the clean_data loop of load_ipeds.py (lines 30-37):
strip a present value, then map sentinel values to None, else keep the
stripped value. -/
def cleanValueIpeds (v : Option String) : Option String :=
  let value : Option String :=
    match v with
    | some s => some (pyStrip s)
    | none => none
  if value ∈ ipedsSentinels then none else value

/-- Body of the clean_data loop of load_scorecard.py (lines 38-43):
map sentinel values to None, else keep the value unchanged (no strip). -/
def cleanValueScorecard (v : Option String) : Option String :=
  if v ∈ scorecardSentinels then none else v

/-- clean_data of load_ipeds.py (lines 24-41): one cleaned entry per requested
column, in column order. -/
def clean_data_ipeds (row : List (String × String)) (columns : List String) :
    List (String × Option String) :=
  columns.map (fun col => (col, cleanValueIpeds (pyGet row col)))

/-- clean_data of load_scorecard.py (lines 24-44). -/
def clean_data_scorecard (row : List (String × String)) (columns : List String) :
    List (String × Option String) :=
  columns.map (fun col => (col, cleanValueScorecard (pyGet row col)))

/-- Decimal value of a digit list (most significant first). -/
def digitsToNat (l : List Char) : Nat :=
  l.foldl (fun acc c => acc * 10 + (c.toNat - 48)) 0

/-- Python int(s) on a string: optional surrounding whitespace, an optional
sign, then at least one decimal digit; none models the ValueError raise. -/
def pyInt (s : String) : Option Int :=
  let t := (pyStrip s).data
  let signedCore : Int × List Char :=
    match t with
    | '-' :: rest => (-1, rest)
    | '+' :: rest => (1, rest)
    | _ => (1, t)
  let core := signedCore.2
  if core ≠ [] ∧ core.all Char.isDigit then some (signedCore.1 * digitsToNat core)
  else none

/-- Outcome of the per-row identifier check of load_ipeds.py lines 174-177. -/
inductive GuardResult where
  | accept
  | reject
  | error (msg : String)
deriving Repr, DecidableEq

/-- Referential check of load_ipeds.py lines 174-177:
`if not unitid or int(unitid) not in existing_unitids: skip`.
A missing or empty identifier is falsy and skipped; otherwise int(unitid) is
evaluated first, so a non-numeric identifier raises ValueError (GuardResult.error);
a parsed identifier not in the preloaded set is skipped. -/
def referentialGuard (existing : List Int) (unitid : Option String) : GuardResult :=
  match unitid with
  | none => GuardResult.reject
  | some s =>
    if s = "" then GuardResult.reject
    else
      match pyInt s with
      | none => GuardResult.error ("invalid literal for int with base 10: " ++ s)
      | some n => if n ∈ existing then GuardResult.accept else GuardResult.reject

/-- The guard applied along the row loop: accepted identifier strings in input
order plus the skipped counter; Except.error models the uncaught ValueError
aborting the loop. -/
def guardRun (existing : List Int) : List (Option String) → Except String (List String × Nat)
  | [] => Except.ok ([], 0)
  | u :: rest =>
    match referentialGuard existing u with
    | GuardResult.error e => Except.error e
    | GuardResult.reject =>
      match guardRun existing rest with
      | Except.error e => Except.error e
      | Except.ok (acc, skipped) => Except.ok (acc, skipped + 1)
    | GuardResult.accept =>
      match guardRun existing rest with
      | Except.error e => Except.error e
      | Except.ok (acc, skipped) =>
        match u with
        | some s => Except.ok (s :: acc, skipped)
        | none => Except.ok (acc, skipped)

example : cleanValueScorecard (some "-2") = some "-2" := by decide
example : cleanValueIpeds (some " -2 ") = none := by decide
example : guardRun [1, 2, 3] [some "1", some "4", some "", none] = Except.ok (["1"], 3) := by rfl
example : referentialGuard [1, 2, 3] (some "12A") =
    GuardResult.error "invalid literal for int with base 10: 12A" := by decide

/-- Flushing a run's batches against a store whose write of batch i fails with
the message given by the fault oracle at i; on success the concatenation of the
batches is the pending write set of the transaction. -/
def flushWithFaults {α : Type} (oracle : Nat → Option String) :
    Nat → List (List α) → Except String (List α)
  | _, [] => Except.ok []
  | i, b :: rest =>
    match oracle i with
    | some e => Except.error e
    | none =>
      match flushWithFaults oracle (i + 1) rest with
      | Except.error e => Except.error e
      | Except.ok tail => Except.ok (b ++ tail)

/-- Transaction scope of load_ipeds_data / load_scorecard_data (try / commit /
except rollback, load_ipeds.py lines 147-229): the pending writes of the body
are committed as one unit, and any error leaves the store untouched and is
surfaced to the operator as "Error: " followed by the exception message. -/
def runTransaction {α : Type} (init : List α) (body : Except String (List α)) :
    List α × Option String :=
  match body with
  | Except.ok rows => (init ++ rows, none)
  | Except.error e => (init, some ("Error: " ++ e))

/-- Placeholder list "%s, %s, ..." as built by Python join of one placeholder per column. -/
def placeholdersFor (columns : List String) : String :=
  String.intercalate ", " (columns.map (fun _ => "%s"))

/-- SQL text built by insert_data of load_scorecard.py lines 79-83 (identical in
load_ipeds_aki.py lines 77-81). -/
def insert_data_sql (table : String) (columns : List String) : String :=
  "INSERT INTO " ++ table ++ " (" ++ String.intercalate ", " columns ++ ") VALUES (" ++
    placeholdersFor columns ++ ") ON CONFLICT DO NOTHING"

/-- SQL text built by batch_insert_ipeds of load_ipeds.py lines 132-133: a plain
INSERT with no conflict clause. -/
def batch_insert_ipeds_sql (columns : List String) : String :=
  "INSERT INTO IPEDS_Directory (" ++ String.intercalate ", " columns ++ ") VALUES (" ++
    placeholdersFor columns ++ ")"

/-- Whether an INSERT statement carries the "ON CONFLICT DO NOTHING" clause;
the statement semantics below branch on it. -/
def sqlDoNothing (sql : String) : Bool :=
  "ON CONFLICT DO NOTHING".data.isSuffixOf sql.data

/-- Store semantics of executing one parameterized INSERT for one keyed row:
with the DO NOTHING clause a duplicate key leaves the table unchanged, without
it the store raises a unique-constraint error; a fresh key is appended. -/
def execInsertRow {κ ρ : Type} [DecidableEq κ] (doNothing : Bool)
    (tbl : List (κ × ρ)) (row : κ × ρ) : Except String (List (κ × ρ)) :=
  if tbl.any (fun r => r.1 = row.1) then
    if doNothing then Except.ok tbl
    else Except.error "duplicate key value violates unique constraint"
  else Except.ok (tbl ++ [row])

/-- cursor.executemany for an INSERT statement: the rows are applied in order,
stopping at the first store error. -/
def execInsertMany {κ ρ : Type} [DecidableEq κ] (doNothing : Bool) :
    List (κ × ρ) → List (κ × ρ) → Except String (List (κ × ρ))
  | tbl, [] => Except.ok tbl
  | tbl, r :: rs =>
    match execInsertRow doNothing tbl r with
    | Except.error e => Except.error e
    | Except.ok tbl2 => execInsertMany doNothing tbl2 rs

/-- insert_data of load_scorecard.py lines 68-87 applied to a table state:
executemany of the built SQL, whose conflict policy comes from the SQL text. -/
def insert_data_run {κ ρ : Type} [DecidableEq κ] (table : String) (columns : List String)
    (tbl : List (κ × ρ)) (data : List (κ × ρ)) : Except String (List (κ × ρ)) :=
  execInsertMany (sqlDoNothing (insert_data_sql table columns)) tbl data

/-- Fuel-driven worker for the batch slicing loop
`for i in range(0, len(data), batch_size): data[i:i + batch_size]` of
batch_insert_ipeds (load_ipeds.py lines 134-135): each step takes the next
batch_size rows; the fuel (instantiated with the list length) only serves
termination and never runs out when the step is positive. -/
def pyBatchesAux {α : Type} : Nat → Nat → List α → List (List α)
  | 0, _, _ => []
  | _, _, [] => []
  | fuel + 1, b, x :: xs => (x :: xs).take b :: pyBatchesAux fuel b ((x :: xs).drop b)

/-- The list of row batches issued by batch_insert_ipeds for a data list and a
batch size. -/
def pyBatches {α : Type} (b : Nat) (xs : List α) : List (List α) :=
  pyBatchesAux xs.length b xs

/-- Batches applied in order by repeated cursor.executemany calls, stopping at
the first store error. -/
def execBatches {κ ρ : Type} [DecidableEq κ] (doNothing : Bool) :
    List (κ × ρ) → List (List (κ × ρ)) → Except String (List (κ × ρ))
  | tbl, [] => Except.ok tbl
  | tbl, batch :: rest =>
    match execInsertMany doNothing tbl batch with
    | Except.error e => Except.error e
    | Except.ok tbl2 => execBatches doNothing tbl2 rest

/-- batch_insert_ipeds of load_ipeds.py lines 122-135 applied to a table state:
slice the data into batches and executemany each with the built (conflict-free)
INSERT statement. -/
def batch_insert_ipeds_run {κ ρ : Type} [DecidableEq κ] (columns : List String)
    (batchSize : Nat) (tbl : List (κ × ρ)) (data : List (κ × ρ)) :
    Except String (List (κ × ρ)) :=
  execBatches (sqlDoNothing (batch_insert_ipeds_sql columns)) tbl (pyBatches batchSize data)

/-- SQL text of batch_insert_location (load_ipeds.py lines 110-116). -/
def batch_insert_location_sql : String :=
  "INSERT INTO Location (UNITID, ADDR) VALUES (%s, %s) ON CONFLICT (UNITID) " ++
    "DO UPDATE SET ADDR = EXCLUDED.ADDR WHERE Location.ADDR IS NULL OR Location.ADDR = ''"

/-- Store semantics of one execution of batch_insert_location's statement on the
Location table (unitid to stored ADDR, where the stored ADDR itself may be SQL
NULL): a missing row is inserted; on conflict the ADDR is replaced only when the
stored value is NULL or the empty string, otherwise the row is kept. -/
def locUpsert (store : Int → Option (Option String)) (u : Int) (a : String) :
    Int → Option (Option String) :=
  fun k =>
    if k = u then
      match store u with
      | none => some (some a)
      | some stored =>
        if stored = none ∨ stored = some "" then some (some a) else some stored
    else store k

/-- batch_insert_location of load_ipeds.py lines 105-119: executemany of the
guarded upsert over the collected (unitid, addr) updates. -/
def batch_insert_location_run (store : Int → Option (Option String)) :
    List (Int × String) → (Int → Option (Option String))
  | [] => store
  | (u, a) :: rest => batch_insert_location_run (locUpsert store u a) rest

/-- Python s.startswith(p), character-wise. -/
def pyStartsWith (s p : String) : Bool :=
  p.data.isPrefixOf s.data

/-- Python slice s[a:b] for 0 ≤ a ≤ b, character-wise. -/
def pySlice (s : String) (a b : Nat) : String :=
  String.mk ((s.data.drop a).take (b - a))

/-- Python s.isdigit(): nonempty and all digits. -/
def pyIsDigit (s : String) : Bool :=
  !s.data.isEmpty && s.data.all Char.isDigit

/-- Candidate year prefixes of map_columns_by_year (load_ipeds.py line 72):
the set comprehension over col[:3] with col[:3].startswith("C") and
col[1:3].isdigit(), modelled as a deduplicated list in scan order. -/
def candidatePfxs (columns : List String) : List String :=
  ((columns.filter (fun col =>
      pyStartsWith (pySlice col 0 3) "C" && pyIsDigit (pySlice col 1 3))).map
    (fun col => pySlice col 0 3)).dedup

/-- Expected prefix of map_columns_by_year (load_ipeds.py line 75):
the Python f-string f"C{year % 100 - 1}" over machine integers. -/
def targetPfx (year : Int) : String :=
  "C" ++ toString (year % 100 - 1)

/-- The mapping literal of load_ipeds.py lines 84-91: pairs of fixed
vendor suffix and canonical schema field name. -/
def suffixMap : List (String × String) :=
  [("BASIC", "CCBASIC"), ("UGPRF", "CCUGPROF"), ("SZSET", "CCSIZSET"),
   ("IPUG", "CCIPUG"), ("IPGRD", "CCIPGRD"), ("ENPRF", "CCENPROF")]

/-- Result mapping of load_ipeds.py line 94: schema name to the prefixed CSV
column when that column is in the header, else None. -/
def buildMapping (pfx : String) (columns : List String) : List (String × Option String) :=
  suffixMap.map (fun p =>
    (p.2, if (pfx ++ p.1) ∈ columns then some (pfx ++ p.1) else none))

/-- Outcome of a successful column resolution: the schema mapping, and whether
the fallback diagnostic (the warning print of line 77) was emitted. -/
structure Resolution where
  mapping : List (String × Option String)
  warned : Bool
deriving Repr, DecidableEq

/-- map_columns_by_year of load_ipeds.py lines 60-94: use the expected year
prefix when present in the header's candidate set; otherwise warn and fall back
to an arbitrary candidate (set.pop(), modelled as the first in scan order);
raise ValueError when no candidate exists. -/
def map_columns_by_year (columns : List String) (year : Int) : Except String Resolution :=
  let pfxs := candidatePfxs columns
  let tgt := targetPfx year
  if tgt ∈ pfxs then
    Except.ok ⟨buildMapping tgt columns, false⟩
  else
    match pfxs with
    | [] => Except.error "No valid year prefix found in columns."
    | p :: _ => Except.ok ⟨buildMapping p columns, true⟩

/-- Modelled from the spec: the two-digit decimal representation of a year
residue, as in "prefix = two-digit year immediately preceding the given year". -/
def twoDigitSpec (n : Int) : String :=
  if 0 ≤ n ∧ n < 10 then "0" ++ toString n else toString n

/-- Modelled from the spec: the expected column prefix claimed by the spec, the
fixed letter C followed by the two-digit representation of the year immediately
preceding the load year. -/
def specExpectedPfx (year : Int) : String :=
  "C" ++ twoDigitSpec ((year - 1) % 100)

/-- Modelled from the spec: the vendor prefix pattern claimed by the spec, a
fixed letter followed by exactly two digits. -/
def specPfxPattern (p : String) : Bool :=
  match p.data with
  | [c, d1, d2] => c = 'C' && d1.isDigit && d2.isDigit
  | _ => false

example : targetPfx 2022 = "C21" := by decide
example : targetPfx 2010 = "C9" := by decide
example : specExpectedPfx 2010 = "C09" := by decide
example : candidatePfxs ["UNITID", "C21BASIC", "ADDR", "C21SZSET"] = ["C21"] := by decide
example : candidatePfxs ["C5"] = ["C5"] := by decide
example : map_columns_by_year ["C21BASIC", "ADDR"] 2022 =
    Except.ok ⟨[("CCBASIC", some "C21BASIC"), ("CCUGPROF", none), ("CCSIZSET", none),
      ("CCIPUG", none), ("CCIPGRD", none), ("CCENPROF", none)], false⟩ := by rfl
example : map_columns_by_year ["C18BASIC"] 2022 =
    Except.ok ⟨[("CCBASIC", some "C18BASIC"), ("CCUGPROF", none), ("CCSIZSET", none),
      ("CCIPUG", none), ("CCIPGRD", none), ("CCENPROF", none)], true⟩ := by rfl
example : map_columns_by_year ["UNITID", "ADDR"] 2022 =
    Except.error "No valid year prefix found in columns." := by rfl
example : (pyBatches 3 (List.range 10)).map List.length = [3, 3, 3, 1] := by decide

/-- The static_columns list of load_ipeds_data (load_ipeds.py line 161). -/
def staticColumns : List String :=
  ["CBSA", "CBSATYPE", "CSA", "LATITUDE", "LONGITUD"]

/-- The ipeds_directory_cols list of load_ipeds_data (load_ipeds.py lines 163-164):
year and identifier, the static columns, then the mapped schema names. -/
def ipedsDirectoryCols (mapping : List (String × Option String)) : List String :=
  ["YEAR", "UNITID"] ++ staticColumns ++ mapping.map Prod.fst

/-- Lookup in a cleaned row, cleaned_row.get(col, None): flattens the missing
key and the cleaned-to-None cases into none. -/
def cleanedGet (cleaned : List (String × Option String)) (col : String) : Option String :=
  ((cleaned.find? (fun p => p.1 = col)).map (fun p => p.2)).join

/-- The per-row tuple payload of load_ipeds.py lines 189-193 apart from the
leading (data_year, unitid): cleaned static column values, then cleaned values
of the mapped CSV columns (a mapped None source column yields None). -/
def ipedsRowPayload (cleaned : List (String × Option String))
    (mapping : List (String × Option String)) : List (Option String) :=
  staticColumns.map (fun c => cleanedGet cleaned c) ++
    mapping.map (fun p =>
      match p.2 with
      | some csvCol => cleanedGet cleaned csvCol
      | none => none)

/-- The row loop of load_ipeds_data (load_ipeds.py lines 172-203): skip rows
with a falsy identifier or one not in the preloaded set, abort with ValueError
on a non-numeric identifier, and for accepted rows collect the directory tuple
keyed by (data_year, unitid) plus the (unitid, addr) update when the cleaned
ADDR is truthy. Returns (directory rows, addr updates, skipped count). -/
def processIpedsRows (existing : List Int) (header : List String)
    (mapping : List (String × Option String)) (dataYear : Int) :
    List (List (String × String)) →
      Except String (List ((Int × Int) × List (Option String)) × List (Int × String) × Nat)
  | [] => Except.ok ([], [], 0)
  | row :: rest =>
    match pyGet row "UNITID" with
    | none =>
      match processIpedsRows existing header mapping dataYear rest with
      | Except.error e => Except.error e
      | Except.ok (d, a, s) => Except.ok (d, a, s + 1)
    | some us =>
      if us = "" then
        match processIpedsRows existing header mapping dataYear rest with
        | Except.error e => Except.error e
        | Except.ok (d, a, s) => Except.ok (d, a, s + 1)
      else
        match pyInt us with
        | none => Except.error ("invalid literal for int with base 10: " ++ us)
        | some n =>
          if n ∈ existing then
            let cleaned := clean_data_ipeds row header
            let addrValue := cleanedGet cleaned "ADDR"
            let dirRow := ((dataYear, n), ipedsRowPayload cleaned mapping)
            match processIpedsRows existing header mapping dataYear rest with
            | Except.error e => Except.error e
            | Except.ok (d, a, s) =>
              Except.ok (dirRow :: d,
                (match addrValue with
                 | some av => if av = "" then a else (n, av) :: a
                 | none => a),
                s)
          else
            match processIpedsRows existing header mapping dataYear rest with
            | Except.error e => Except.error e
            | Except.ok (d, a, s) => Except.ok (d, a, s + 1)

/-- Final state of one load_ipeds_data run (load_ipeds.py lines 138-229):
Location store, IPEDS_Directory table, skipped counter as reported, and the
operator error message (none on commit). The ADDR header check precedes column
resolution, which precedes the row loop; any raise is caught by the outer
except, which rolls both tables back to their initial state and surfaces
"Error: " plus the exception message. -/
def load_ipeds_run (existing : List Int) (initLoc : Int → Option (Option String))
    (initDir : List ((Int × Int) × List (Option String)))
    (header : List String) (rows : List (List (String × String))) (year : Int) :
    (Int → Option (Option String)) × List ((Int × Int) × List (Option String)) ×
      Nat × Option String :=
  let dataYear := year - 1
  if "ADDR" ∈ header then
    match map_columns_by_year header year with
    | Except.error e => (initLoc, initDir, 0, some ("Error: " ++ e))
    | Except.ok res =>
      match processIpedsRows existing header res.mapping dataYear rows with
      | Except.error e => (initLoc, initDir, 0, some ("Error: " ++ e))
      | Except.ok (dirRows, addrUpdates, skipped) =>
        let loc2 := batch_insert_location_run initLoc addrUpdates
        match batch_insert_ipeds_run (ipedsDirectoryCols res.mapping) 1000 initDir dirRows with
        | Except.error e => (initLoc, initDir, skipped, some ("Error: " ++ e))
        | Except.ok dir2 => (loc2, dir2, skipped, none)
  else
    (initLoc, initDir, 0, some "Error: ADDR column missing from CSV file.")

lemma flushWithFaults_ok {α : Type} (oracle : Nat → Option String)
    (h : ∀ i, oracle i = none) :
    ∀ (batches : List (List α)) (i : Nat),
      flushWithFaults oracle i batches = Except.ok batches.flatten := by
  intro batches
  induction batches with
  | nil => intro i; rfl
  | cons b rest ih =>
    intro i
    simp only [flushWithFaults, h i, ih (i + 1), List.flatten]

/-- C1 counterexample: the claim requires the Value Normalizer to map the
sentinel "-2" to None and to trim surrounding whitespace, but the clean_data of
load_scorecard.py passes "-2" and untrimmed strings through unchanged (only the
clean_data of load_ipeds.py behaves as claimed). -/
theorem C1_counterexample :
    cleanValueScorecard (some "-2") = some "-2" ∧
    clean_data_scorecard [("CDR2", "-2")] ["CDR2"] = [("CDR2", some "-2")] ∧
    cleanValueScorecard (some " 10 ") = some " 10 " ∧
    clean_data_ipeds [("CDR2", "-2")] ["CDR2"] = [("CDR2", none)] :=
  ⟨by decide, by rfl, by decide, by rfl⟩

/-- C1 amended: the IPEDS cleaner returns None exactly when the value is absent
or its stripped form is one of "-999", "", "-2", "NULL", "PrivacySuppressed",
and passes any other string through stripped; the Scorecard cleaner (also used
by load_ipeds_aki.py) tests the raw value against the same list without "-2"
and passes any other string through unchanged, with no trimming. -/
theorem C1_clean_data_characterization :
    (∀ v : Option String, cleanValueIpeds v = none ↔
      (v = none ∨ ∃ s, v = some s ∧
        pyStrip s ∈ (["-999", "", "-2", "NULL", "PrivacySuppressed"] : List String))) ∧
    (∀ s : String,
      pyStrip s ∉ (["-999", "", "-2", "NULL", "PrivacySuppressed"] : List String) →
      cleanValueIpeds (some s) = some (pyStrip s)) ∧
    (∀ v : Option String, cleanValueScorecard v = none ↔
      (v = none ∨ ∃ s, v = some s ∧
        s ∈ (["-999", "", "NULL", "PrivacySuppressed"] : List String))) ∧
    (∀ s : String, s ∉ (["-999", "", "NULL", "PrivacySuppressed"] : List String) →
      cleanValueScorecard (some s) = some s) := by
  refine ⟨?_, ?_, ?_, ?_⟩
  · intro v
    cases v with
    | none => simp [cleanValueIpeds, ipedsSentinels]
    | some s =>
      simp only [cleanValueIpeds, ipedsSentinels]
      constructor
      · intro h
        right
        refine ⟨s, rfl, ?_⟩
        by_contra hmem
        simp only [List.mem_cons, List.mem_singleton] at hmem
        rw [if_neg (by simp; tauto)] at h
        exact Option.some_ne_none _ h
      · rintro (h | ⟨t, ht, hmem⟩)
        · exact absurd h (Option.some_ne_none s)
        · cases ht
          rw [if_pos (by simp at hmem ⊢; tauto)]
  · intro s hs
    simp only [List.mem_cons, List.mem_singleton] at hs
    simp only [cleanValueIpeds, ipedsSentinels]
    rw [if_neg (by simp; tauto)]
  · intro v
    cases v with
    | none => simp [cleanValueScorecard, scorecardSentinels]
    | some s =>
      simp only [cleanValueScorecard, scorecardSentinels]
      constructor
      · intro h
        right
        refine ⟨s, rfl, ?_⟩
        by_contra hmem
        simp only [List.mem_cons, List.mem_singleton] at hmem
        rw [if_neg (by simp; tauto)] at h
        exact Option.some_ne_none _ h
      · rintro (h | ⟨t, ht, hmem⟩)
        · exact absurd h (Option.some_ne_none s)
        · cases ht
          rw [if_pos (by simp at hmem ⊢; tauto)]
  · intro s hs
    simp only [List.mem_cons, List.mem_singleton] at hs
    simp only [cleanValueScorecard, scorecardSentinels]
    rw [if_neg (by simp; tauto)]

/-- C1 witness: the characterization applied at concrete inputs. -/
theorem C1_witness :
    cleanValueIpeds (some " Stanford ") = some "Stanford" ∧
    cleanValueScorecard (some "Stanford") = some "Stanford" := by
  constructor
  · exact (C1_clean_data_characterization.2.1 " Stanford " (by decide)).trans (by decide)
  · exact C1_clean_data_characterization.2.2.2 "Stanford" (by decide)

/-- C2 counterexample: the claim requires every non-numeric identifier to be
rejected without raising, but load_ipeds.py evaluates int(unitid) on a
non-empty identifier before the membership test, so a non-numeric identifier
like "12A" raises ValueError and aborts the row loop. -/
theorem C2_counterexample :
    referentialGuard [1, 2, 3] (some "12A") =
      GuardResult.error "invalid literal for int with base 10: 12A" ∧
    guardRun [1, 2, 3] [some "12A", some "1"] =
      Except.error "invalid literal for int with base 10: 12A" :=
  ⟨by decide, by rfl⟩

/-- C2 amended: an absent or empty identifier, or a numeric identifier not in
the preloaded set, is rejected; each rejection increments the skipped counter
and the loop continues; but a non-empty non-numeric identifier raises and
aborts the run. On the spec's own example (preloaded set of one, two and
three; candidates one, four, empty and absent) exactly the row with
identifier one is accepted and the other three are rejected and counted. -/
theorem C2_guard_behavior :
    (∀ ex : List Int, referentialGuard ex none = GuardResult.reject) ∧
    (∀ ex : List Int, referentialGuard ex (some "") = GuardResult.reject) ∧
    (∀ (ex : List Int) (s : String) (n : Int), s ≠ "" → pyInt s = some n →
      referentialGuard ex (some s) =
        (if n ∈ ex then GuardResult.accept else GuardResult.reject)) ∧
    (∀ (ex : List Int) (s : String), s ≠ "" → pyInt s = none →
      referentialGuard ex (some s) =
        GuardResult.error ("invalid literal for int with base 10: " ++ s)) ∧
    (∀ (ex : List Int) (u : Option String) (rest : List (Option String)),
      referentialGuard ex u = GuardResult.reject →
      guardRun ex (u :: rest) =
        (guardRun ex rest).map (fun p => (p.1, p.2 + 1))) ∧
    guardRun [1, 2, 3] [some "1", some "4", some "", none] = Except.ok (["1"], 3) := by
  refine ⟨fun ex => rfl, fun ex => rfl, ?_, ?_, ?_, by rfl⟩
  · intro ex s n hs hn
    simp only [referentialGuard, if_neg hs, hn]
  · intro ex s hs hn
    simp only [referentialGuard, if_neg hs, hn]
  · intro ex u rest hreject
    simp only [guardRun, hreject]
    cases guardRun ex rest with
    | error e => rfl
    | ok p => rfl

/-- C2 witness: the amended guard behavior applied at concrete inputs. -/
theorem C2_witness :
    referentialGuard [1, 2, 3] (some "4") = GuardResult.reject ∧
    referentialGuard [1, 2, 3] (some "12A") =
      GuardResult.error ("invalid literal for int with base 10: " ++ "12A") ∧
    guardRun [1, 2, 3] [some "9", some "1"] =
      (guardRun [1, 2, 3] [some "1"]).map (fun p => (p.1, p.2 + 1)) := by
  refine ⟨?_, ?_, ?_⟩
  · exact (C2_guard_behavior.2.2.1 [1, 2, 3] "4" 4 (by decide) (by decide)).trans (by decide)
  · exact C2_guard_behavior.2.2.2.1 [1, 2, 3] "12A" (by decide) (by decide)
  · exact C2_guard_behavior.2.2.2.2.1 [1, 2, 3] (some "9") [some "1"] (by decide)

/-- C3: a store error anywhere in the flushing sequence rolls the whole
transaction back to the initial table and surfaces an operator message
containing the causing error; with no fault the concatenation of all batches
commits as one unit; and a raise during the row-reading loop of
load_ipeds_data likewise leaves both target tables at their initial state with
the causing message surfaced. -/
theorem C3_transaction_all_or_nothing {α : Type} (init : List α)
    (oracle : Nat → Option String) (batches : List (List α)) :
    (∀ e, flushWithFaults oracle 0 batches = Except.error e →
      runTransaction init (flushWithFaults oracle 0 batches) =
        (init, some ("Error: " ++ e))) ∧
    ((∀ i, oracle i = none) →
      runTransaction init (flushWithFaults oracle 0 batches) =
        (init ++ batches.flatten, none)) ∧
    (∀ (existing : List Int) (initLoc : Int → Option (Option String))
        (initDir : List ((Int × Int) × List (Option String)))
        (header : List String) (rows : List (List (String × String))) (year : Int)
        (res : Resolution) (e : String),
      "ADDR" ∈ header →
      map_columns_by_year header year = Except.ok res →
      processIpedsRows existing header res.mapping (year - 1) rows = Except.error e →
      load_ipeds_run existing initLoc initDir header rows year =
        (initLoc, initDir, 0, some ("Error: " ++ e))) := by
  refine ⟨?_, ?_, ?_⟩
  · intro e he
    simp only [runTransaction, he]
  · intro h
    simp only [runTransaction, flushWithFaults_ok oracle h batches 0]
  · intro existing initLoc initDir header rows year res e haddr hres hproc
    simp only [load_ipeds_run, if_pos haddr, hres, hproc]

/-- C3 witness: the transaction contract applied at a concrete faulty run and a
concrete clean run. -/
theorem C3_witness :
    runTransaction ([10] : List Nat)
      (flushWithFaults (fun i => if i = 1 then some "connection lost" else none) 0
        [[1, 2], [3]]) = ([10], some ("Error: " ++ "connection lost")) ∧
    runTransaction ([10] : List Nat)
      (flushWithFaults (fun _ => none) 0 [[1, 2], [3]]) =
      ([10] ++ ([[1, 2], [3]] : List (List Nat)).flatten, none) := by
  constructor
  · exact (C3_transaction_all_or_nothing [10]
      (fun i => if i = 1 then some "connection lost" else none) [[1, 2], [3]]).1
      "connection lost" (by rfl)
  · exact (C3_transaction_all_or_nothing [10] (fun _ => none) [[1, 2], [3]]).2.1
      (fun i => rfl)

/-- Total description of executemany under ON CONFLICT DO NOTHING: fold that
keeps the first row per key and appends fresh keys. -/
def dnApply {κ ρ : Type} [DecidableEq κ] (tbl : List (κ × ρ)) (data : List (κ × ρ)) :
    List (κ × ρ) :=
  data.foldl (fun t r => if t.any (fun q => q.1 = r.1) then t else t ++ [r]) tbl

lemma execInsertMany_doNothing {κ ρ : Type} [DecidableEq κ] :
    ∀ (data tbl : List (κ × ρ)),
      execInsertMany true tbl data = Except.ok (dnApply tbl data) := by
  intro data
  induction data with
  | nil => intro tbl; rfl
  | cons r rs ih =>
    intro tbl
    simp only [execInsertMany, execInsertRow, dnApply, List.foldl_cons]
    by_cases h : (tbl.any fun q => q.1 = r.1) = true
    · rw [if_pos h, if_pos h]
      exact ih tbl
    · rw [if_neg h, if_neg h]
      exact ih (tbl ++ [r])

lemma dnApply_hasKey_mono {κ ρ : Type} [DecidableEq κ] :
    ∀ (data tbl : List (κ × ρ)) (k : κ),
      (tbl.any fun q => q.1 = k) = true →
      ((dnApply tbl data).any fun q => q.1 = k) = true := by
  intro data
  induction data with
  | nil => intro tbl k h; exact h
  | cons r rs ih =>
    intro tbl k h
    simp only [dnApply, List.foldl_cons]
    by_cases hr : (tbl.any fun q => q.1 = r.1) = true
    · rw [if_pos hr]; exact ih tbl k h
    · rw [if_neg hr]
      apply ih
      rw [List.any_append]
      rw [h]
      rfl

lemma dnApply_hasKey_of_mem {κ ρ : Type} [DecidableEq κ] :
    ∀ (data tbl : List (κ × ρ)) (r : κ × ρ), r ∈ data →
      ((dnApply tbl data).any fun q => q.1 = r.1) = true := by
  intro data
  induction data with
  | nil => intro tbl r h; exact absurd h (List.not_mem_nil r)
  | cons x rs ih =>
    intro tbl r h
    rcases List.mem_cons.mp h with h | h
    · subst h
      simp only [dnApply, List.foldl_cons]
      by_cases hr : (tbl.any fun q => q.1 = r.1) = true
      · rw [if_pos hr]
        exact dnApply_hasKey_mono rs tbl r.1 hr
      · rw [if_neg hr]
        apply dnApply_hasKey_mono
        rw [List.any_append]
        simp
    · simp only [dnApply, List.foldl_cons]
      exact ih _ r h

lemma dnApply_eq_of_all_present {κ ρ : Type} [DecidableEq κ] :
    ∀ (data tbl : List (κ × ρ)),
      (∀ r ∈ data, (tbl.any fun q => q.1 = r.1) = true) → dnApply tbl data = tbl := by
  intro data
  induction data with
  | nil => intro tbl _; rfl
  | cons r rs ih =>
    intro tbl h
    simp only [dnApply, List.foldl_cons]
    rw [if_pos (h r (List.mem_cons_self r rs))]
    exact ih tbl (fun q hq => h q (List.mem_cons_of_mem r hq))

lemma sqlDoNothing_of_append (x : String) :
    sqlDoNothing (x ++ ") ON CONFLICT DO NOTHING") = true := by
  rw [sqlDoNothing, List.isSuffixOf_iff_suffix, String.data_append]
  exact List.IsSuffix.trans (by decide) (List.suffix_append _ _)

lemma ipedsDirectoryCols_buildMapping (pfx : String) (cols : List String) :
    ipedsDirectoryCols (buildMapping pfx cols) =
      ["YEAR", "UNITID", "CBSA", "CBSATYPE", "CSA", "LATITUDE", "LONGITUD",
       "CCBASIC", "CCUGPROF", "CCSIZSET", "CCIPUG", "CCIPGRD", "CCENPROF"] := by
  simp [ipedsDirectoryCols, buildMapping, suffixMap, staticColumns]

/-- C4 counterexample: the claim requires every non-location writer to resolve
duplicate primary keys by doing nothing without error, but the IPEDS_Directory
writer batch_insert_ipeds builds a plain INSERT with no conflict clause, so
re-inserting an existing (year, unitid) key raises a unique-constraint store
error instead of being silently ignored. -/
theorem C4_counterexample :
    batch_insert_ipeds_sql ["YEAR", "UNITID"] =
      "INSERT INTO IPEDS_Directory (YEAR, UNITID) VALUES (%s, %s)" ∧
    sqlDoNothing (batch_insert_ipeds_sql ["YEAR", "UNITID"]) = false ∧
    batch_insert_ipeds_run ["YEAR", "UNITID"] 1000
        ([(((2021 : Int), (100654 : Int)), [some "x"])])
        [(((2021 : Int), (100654 : Int)), [some "x"])] =
      Except.error "duplicate key value violates unique constraint" :=
  ⟨by decide, by decide, by rfl⟩

/-- C4 amended: the scorecard-side writer insert_data always carries ON
CONFLICT DO NOTHING, so an existing key leaves the table unchanged without
error and re-loading the same data is a no-op; the IPEDS_Directory writer
batch_insert_ipeds carries no conflict clause, so a duplicate key makes the
store raise (and the surrounding transaction roll the run back). -/
theorem C4_conflict_policy :
    (∀ (table : String) (columns : List String),
      sqlDoNothing (insert_data_sql table columns) = true) ∧
    (∀ (tbl : List (Int × List (Option String))) (r : Int × List (Option String)),
      (tbl.any fun q => q.1 = r.1) = true → execInsertRow true tbl r = Except.ok tbl) ∧
    (∀ (table : String) (columns : List String)
        (tbl tbl2 data : List (Int × List (Option String))),
      insert_data_run table columns tbl data = Except.ok tbl2 →
      insert_data_run table columns tbl2 data = Except.ok tbl2) ∧
    (∀ (pfx : String) (cols : List String),
      sqlDoNothing (batch_insert_ipeds_sql (ipedsDirectoryCols (buildMapping pfx cols))) =
        false) ∧
    (∀ (tbl : List ((Int × Int) × List (Option String)))
        (r : (Int × Int) × List (Option String))
        (rest : List ((Int × Int) × List (Option String))),
      (tbl.any fun q => q.1 = r.1) = true →
      execInsertMany false tbl (r :: rest) =
        Except.error "duplicate key value violates unique constraint") := by
  refine ⟨?_, ?_, ?_, ?_, ?_⟩
  · intro table columns
    exact sqlDoNothing_of_append _
  · intro tbl r h
    simp [execInsertRow, h]
  · intro table columns tbl tbl2 data h1
    have hdn : sqlDoNothing (insert_data_sql table columns) = true :=
      sqlDoNothing_of_append _
    rw [insert_data_run, hdn] at h1 ⊢
    rw [execInsertMany_doNothing] at h1
    rw [execInsertMany_doNothing]
    have htbl2 : tbl2 = dnApply tbl data := by
      cases h1
      rfl
    subst htbl2
    rw [dnApply_eq_of_all_present data (dnApply tbl data)
      (fun r hr => dnApply_hasKey_of_mem data tbl r hr)]
  · intro pfx cols
    rw [ipedsDirectoryCols_buildMapping]
    decide
  · intro tbl r rest h
    simp only [execInsertMany, execInsertRow, if_pos h, if_neg Bool.false_ne_true]

/-- C4 witness: the amended conflict policy applied at concrete inputs. -/
theorem C4_witness :
    execInsertRow true ([((100654 : Int), [some "a"])]) ((100654 : Int), [some "b"]) =
      Except.ok ([((100654 : Int), [some "a"])]) ∧
    insert_data_run "Institutions" ["UNITID", "INSTNM"]
      ([] : List (Int × List (Option String))) [((100654 : Int), [some "a"])] =
      Except.ok [((100654 : Int), [some "a"])] ∧
    insert_data_run "Institutions" ["UNITID", "INSTNM"]
      [((100654 : Int), [some "a"])] [((100654 : Int), [some "a"])] =
      Except.ok [((100654 : Int), [some "a"])] ∧
    execInsertMany false ([(((2021 : Int), (100654 : Int)), [some "x"])])
      [(((2021 : Int), (100654 : Int)), [some "y"])] =
      Except.error "duplicate key value violates unique constraint" := by
  refine ⟨?_, by rfl, ?_, ?_⟩
  · exact C4_conflict_policy.2.1 _ _ (by decide)
  · exact C4_conflict_policy.2.2.1 "Institutions" ["UNITID", "INSTNM"] []
      [((100654 : Int), [some "a"])] [((100654 : Int), [some "a"])] (by rfl)
  · exact C4_conflict_policy.2.2.2.2 _ _ [] (by decide)

/-- C5: the Location ADDR upsert modifies a stored value only when it is NULL
or the empty string, and a stored non-empty ADDR survives every sequence of
address updates applied by batch_insert_location. -/
theorem C5_location_guarded_upsert :
    (∀ (store : Int → Option (Option String)) (u : Int) (a : String) (k : Int)
        (stored : Option String),
      store k = some stored → locUpsert store u a k ≠ some stored →
      stored = none ∨ stored = some "") ∧
    (∀ (store : Int → Option (Option String)) (updates : List (Int × String))
        (u : Int) (v : String), v ≠ "" → store u = some (some v) →
      batch_insert_location_run store updates u = some (some v)) := by
  constructor
  · intro store u a k stored hs hne
    by_cases hk : k = u
    · subst hk
      simp only [locUpsert, if_pos rfl, hs] at hne
      by_cases hg : stored = none ∨ stored = some ""
      · exact hg
      · rw [if_neg hg] at hne
        exact absurd rfl hne
    · simp only [locUpsert, if_neg hk] at hne
      exact absurd hs hne
  · intro store updates
    induction updates generalizing store with
    | nil => intro u v hv hs; exact hs
    | cons p rest ih =>
      intro u v hv hs
      obtain ⟨u2, a2⟩ := p
      show batch_insert_location_run (locUpsert store u2 a2) rest u = some (some v)
      apply ih _ u v hv
      by_cases h : u = u2
      · subst h
        simp only [locUpsert, if_pos rfl, hs]
        have hguard : ¬(some v = none ∨ some v = some "") := by
          rintro (hc | hc)
          · exact Option.some_ne_none v hc
          · exact hv (Option.some.inj hc)
        split <;> first | rw [if_neg hguard] | rfl
      · simp only [locUpsert, if_neg h]
        exact hs

/-- C5 witness: a stored non-empty address survives a concrete load run that
tries to overwrite it. -/
theorem C5_witness :
    batch_insert_location_run
      (fun k => if k = 1 then some (some "123 Main St") else none)
      [(1, "456 Oak Ave"), (2, "9 Elm St")] 1 = some (some "123 Main St") :=
  C5_location_guarded_upsert.2
    (fun k => if k = 1 then some (some "123 Main St") else none)
    [(1, "456 Oak Ave"), (2, "9 Elm St")] 1 "123 Main St" (by decide) (by decide)

lemma cdata : "C".data = ['C'] := rfl

/-- C6 counterexample: the claim's two-digit convention fails at load year
2010, where the code computes "C9" (one digit) while the two-digit
representation of the preceding year 2009 is "09"; and the candidate scan also
admits the two-character column name "C5", which does not match the
letter-plus-two-digits pattern. -/
theorem C6_counterexample :
    targetPfx 2010 = "C9" ∧
    specExpectedPfx 2010 = "C09" ∧
    targetPfx 2010 ≠ specExpectedPfx 2010 ∧
    candidatePfxs ["C5"] = ["C5"] ∧
    specPfxPattern "C5" = false := by
  refine ⟨by decide, by decide, by decide, by decide, by decide⟩

/-- C6 amended: the expected prefix is the letter C followed by the plain
decimal representation of (year mod 100) minus one, which agrees with the
spec's two-digit convention exactly when the load year's last two digits are
at least 11 (e.g. 2022 yields "C21"); the recognized candidates are the
three-character slices of header columns whose first character is C and whose
next one or two characters are digits, which coincides with the
letter-plus-two-digits pattern for columns of length at least three. -/
theorem C6_prefix_resolution :
    (∀ year : Int, 11 ≤ year % 100 → targetPfx year = specExpectedPfx year) ∧
    targetPfx 2022 = "C21" ∧
    (∀ col : String, 3 ≤ col.data.length →
      ((pyStartsWith (pySlice col 0 3) "C" && pyIsDigit (pySlice col 1 3)) = true ↔
        specPfxPattern (pySlice col 0 3) = true)) ∧
    (∀ (columns : List String) (p : String), p ∈ candidatePfxs columns →
      ∃ col ∈ columns, p = pySlice col 0 3 ∧
        pyStartsWith (pySlice col 0 3) "C" = true ∧ pyIsDigit (pySlice col 1 3) = true) := by
  refine ⟨?_, by decide, ?_, ?_⟩
  · intro year h
    have hlt : year % 100 < 100 := Int.emod_lt_of_pos year (by norm_num)
    have hsub : (year - 1) % 100 = year % 100 - 1 := by omega
    unfold targetPfx specExpectedPfx twoDigitSpec
    rw [hsub, if_neg (by omega)]
  · intro col hlen
    cases hd : col.data with
    | nil => rw [hd] at hlen; simp at hlen
    | cons c0 t0 =>
      cases t0 with
      | nil => rw [hd] at hlen; simp at hlen
      | cons c1 t1 =>
        cases t1 with
        | nil => rw [hd] at hlen; simp at hlen
        | cons c2 rest0 =>
          simp only [pySlice, pyStartsWith, pyIsDigit, specPfxPattern, hd, cdata]
          simp [List.isPrefixOf, List.take, List.drop]
          tauto
  · intro columns p hp
    have hp2 := List.mem_dedup.mp hp
    obtain ⟨col, hcolmem, hcoleq⟩ := List.mem_map.mp hp2
    obtain ⟨hin, hcond⟩ := List.mem_filter.mp hcolmem
    rw [Bool.and_eq_true] at hcond
    exact ⟨col, hin, hcoleq.symm, hcond.1, hcond.2⟩

/-- C6 witness: the amended prefix formula and pattern correspondence applied
at a concrete year and a concrete header column. -/
theorem C6_witness :
    targetPfx 2022 = specExpectedPfx 2022 ∧
    ((pyStartsWith (pySlice "C21BASIC" 0 3) "C" && pyIsDigit (pySlice "C21BASIC" 1 3)) = true ↔
      specPfxPattern (pySlice "C21BASIC" 0 3) = true) ∧
    (∃ col ∈ ["UNITID", "C21BASIC"], "C21" = pySlice col 0 3 ∧
      pyStartsWith (pySlice col 0 3) "C" = true ∧ pyIsDigit (pySlice col 1 3) = true) := by
  refine ⟨?_, ?_, ?_⟩
  · exact C6_prefix_resolution.1 2022 (by decide)
  · exact C6_prefix_resolution.2.2.1 "C21BASIC" (by decide)
  · exact C6_prefix_resolution.2.2.2 ["UNITID", "C21BASIC"] "C21" (by decide)

/-- C7: when the expected year prefix is absent but the header has some
candidate prefix, resolution falls back to a found candidate with the warning
flag set and does not raise; when the header has no candidate prefix at all,
map_columns_by_year raises the configuration error, and a load run over such a
header rolls back with that error before looking at any row (its outcome does
not depend on the rows). -/
theorem C7_fallback_or_config_error (columns : List String) (year : Int) :
    (targetPfx year ∉ candidatePfxs columns → candidatePfxs columns ≠ [] →
      ∃ p ∈ candidatePfxs columns,
        map_columns_by_year columns year = Except.ok ⟨buildMapping p columns, true⟩) ∧
    (candidatePfxs columns = [] →
      map_columns_by_year columns year =
        Except.error "No valid year prefix found in columns.") ∧
    (∀ (existing : List Int) (initLoc : Int → Option (Option String))
        (initDir : List ((Int × Int) × List (Option String)))
        (rows rows2 : List (List (String × String))),
      "ADDR" ∈ columns → candidatePfxs columns = [] →
      load_ipeds_run existing initLoc initDir columns rows year =
        (initLoc, initDir, 0, some "Error: No valid year prefix found in columns.") ∧
      load_ipeds_run existing initLoc initDir columns rows year =
        load_ipeds_run existing initLoc initDir columns rows2 year) := by
  refine ⟨?_, ?_, ?_⟩
  · intro hno hne
    obtain ⟨p, ps, hps⟩ : ∃ p ps, candidatePfxs columns = p :: ps := by
      cases hc : candidatePfxs columns with
      | nil => exact absurd hc hne
      | cons a l => exact ⟨a, l, rfl⟩
    refine ⟨p, by rw [hps]; exact List.mem_cons_self p ps, ?_⟩
    rw [hps] at hno
    simp only [map_columns_by_year, hps, if_neg hno]
  · intro hcand
    simp only [map_columns_by_year, hcand, List.not_mem_nil, if_false]
  · intro existing initLoc initDir rows rows2 haddr hcand
    have herr : map_columns_by_year columns year =
        Except.error "No valid year prefix found in columns." := by
      simp only [map_columns_by_year, hcand]
      rw [if_neg (List.not_mem_nil _)]
    constructor
    · simp only [load_ipeds_run, if_pos haddr, herr]
      rfl
    · simp only [load_ipeds_run, if_pos haddr, herr]

/-- C7 witness: fallback and configuration failure at concrete headers. -/
theorem C7_witness :
    (∃ p ∈ candidatePfxs ["C18BASIC", "ADDR"],
      map_columns_by_year ["C18BASIC", "ADDR"] 2022 =
        Except.ok ⟨buildMapping p ["C18BASIC", "ADDR"], true⟩) ∧
    map_columns_by_year ["UNITID", "ADDR"] 2022 =
      Except.error "No valid year prefix found in columns." ∧
    load_ipeds_run [1] (fun _ => none) [] ["UNITID", "ADDR"] [[("UNITID", "1")]] 2022 =
      ((fun _ => none), [], 0, some "Error: No valid year prefix found in columns.") := by
  refine ⟨?_, ?_, ?_⟩
  · exact (C7_fallback_or_config_error ["C18BASIC", "ADDR"] 2022).1 (by decide) (by decide)
  · exact (C7_fallback_or_config_error ["UNITID", "ADDR"] 2022).2.1 (by decide)
  · exact ((C7_fallback_or_config_error ["UNITID", "ADDR"] 2022).2.2 [1] (fun _ => none) []
      [[("UNITID", "1")]] [] (by decide) (by decide)).1

/-- C8: for a header whose candidate set is exactly one generation, resolution
succeeds (never raises) and returns the mapping whose keys are the six
canonical schema names, each bound to its prefixed CSV column when that column
is in the header and to None otherwise. -/
theorem C8_single_generation_mapping (columns : List String) (year : Int) (p : String)
    (h : candidatePfxs columns = [p]) :
    ∃ w : Bool, map_columns_by_year columns year = Except.ok
      ⟨[("CCBASIC", if (p ++ "BASIC") ∈ columns then some (p ++ "BASIC") else none),
        ("CCUGPROF", if (p ++ "UGPRF") ∈ columns then some (p ++ "UGPRF") else none),
        ("CCSIZSET", if (p ++ "SZSET") ∈ columns then some (p ++ "SZSET") else none),
        ("CCIPUG", if (p ++ "IPUG") ∈ columns then some (p ++ "IPUG") else none),
        ("CCIPGRD", if (p ++ "IPGRD") ∈ columns then some (p ++ "IPGRD") else none),
        ("CCENPROF", if (p ++ "ENPRF") ∈ columns then some (p ++ "ENPRF") else none)],
       w⟩ := by
  have hb : buildMapping p columns =
      [("CCBASIC", if (p ++ "BASIC") ∈ columns then some (p ++ "BASIC") else none),
       ("CCUGPROF", if (p ++ "UGPRF") ∈ columns then some (p ++ "UGPRF") else none),
       ("CCSIZSET", if (p ++ "SZSET") ∈ columns then some (p ++ "SZSET") else none),
       ("CCIPUG", if (p ++ "IPUG") ∈ columns then some (p ++ "IPUG") else none),
       ("CCIPGRD", if (p ++ "IPGRD") ∈ columns then some (p ++ "IPGRD") else none),
       ("CCENPROF", if (p ++ "ENPRF") ∈ columns then some (p ++ "ENPRF") else none)] := by
    simp [buildMapping, suffixMap]
  by_cases htgt : targetPfx year ∈ candidatePfxs columns
  · refine ⟨false, ?_⟩
    have heq : targetPfx year = p := by
      rw [h] at htgt
      simpa using htgt
    simp only [map_columns_by_year]
    rw [if_pos htgt, heq, hb]
  · refine ⟨true, ?_⟩
    rw [h] at htgt
    simp only [map_columns_by_year, h, hb]
    rw [if_neg htgt]

/-- C8 witness: the single-generation mapping at a concrete header containing
two of the six suffixed columns. -/
theorem C8_witness :
    ∃ w : Bool, map_columns_by_year ["UNITID", "C21BASIC", "C21SZSET", "ADDR"] 2022 =
      Except.ok
        ⟨[("CCBASIC", if ("C21" ++ "BASIC") ∈ ["UNITID", "C21BASIC", "C21SZSET", "ADDR"]
            then some ("C21" ++ "BASIC") else none),
          ("CCUGPROF", if ("C21" ++ "UGPRF") ∈ ["UNITID", "C21BASIC", "C21SZSET", "ADDR"]
            then some ("C21" ++ "UGPRF") else none),
          ("CCSIZSET", if ("C21" ++ "SZSET") ∈ ["UNITID", "C21BASIC", "C21SZSET", "ADDR"]
            then some ("C21" ++ "SZSET") else none),
          ("CCIPUG", if ("C21" ++ "IPUG") ∈ ["UNITID", "C21BASIC", "C21SZSET", "ADDR"]
            then some ("C21" ++ "IPUG") else none),
          ("CCIPGRD", if ("C21" ++ "IPGRD") ∈ ["UNITID", "C21BASIC", "C21SZSET", "ADDR"]
            then some ("C21" ++ "IPGRD") else none),
          ("CCENPROF", if ("C21" ++ "ENPRF") ∈ ["UNITID", "C21BASIC", "C21SZSET", "ADDR"]
            then some ("C21" ++ "ENPRF") else none)],
         w⟩ :=
  C8_single_generation_mapping ["UNITID", "C21BASIC", "C21SZSET", "ADDR"] 2022 "C21" (by decide)

lemma pyBatchesAux_nil {α : Type} (b : Nat) (fuel : Nat) :
    pyBatchesAux fuel b ([] : List α) = [] := by
  cases fuel <;> rfl

lemma ceil_div_step (b n : Nat) (hb : 0 < b) (hn : 0 < n) :
    (n - b + b - 1) / b + 1 = (n + b - 1) / b := by
  by_cases hle : n ≤ b
  · have h1 : n - b = 0 := by omega
    have h2 : (0 + b - 1) / b = 0 := Nat.div_eq_of_lt (by omega)
    have h3 : (n + b - 1) / b = 1 := Nat.div_eq_of_lt_le (by omega) (by omega)
    rw [h1, h2, h3]
  · have h2 : n - b + b - 1 = n - 1 := by omega
    have h3 : n + b - 1 = n - 1 + b := by omega
    rw [h2, h3, Nat.add_div_right _ hb]

lemma pyBatchesAux_flatten {α : Type} (b : Nat) (hb : 0 < b) :
    ∀ (fuel : Nat) (xs : List α), xs.length ≤ fuel →
      (pyBatchesAux fuel b xs).flatten = xs := by
  intro fuel
  induction fuel with
  | zero =>
    intro xs h
    have hx : xs = [] := List.eq_nil_of_length_eq_zero (Nat.le_zero.mp h)
    subst hx
    rfl
  | succ n ih =>
    intro xs h
    cases xs with
    | nil => rfl
    | cons x t =>
      simp only [pyBatchesAux, List.flatten_cons]
      rw [ih ((x :: t).drop b)
        (by simp only [List.length_drop]; simp only [List.length_cons] at h ⊢; omega)]
      exact List.take_append_drop b (x :: t)

lemma pyBatchesAux_length {α : Type} (b : Nat) (hb : 0 < b) :
    ∀ (fuel : Nat) (xs : List α), xs.length ≤ fuel →
      (pyBatchesAux fuel b xs).length = (xs.length + b - 1) / b := by
  intro fuel
  induction fuel with
  | zero =>
    intro xs h
    have hx : xs = [] := List.eq_nil_of_length_eq_zero (Nat.le_zero.mp h)
    subst hx
    simp only [pyBatchesAux, List.length_nil]
    rw [Nat.div_eq_of_lt (by omega)]
  | succ n ih =>
    intro xs h
    cases xs with
    | nil =>
      rw [pyBatchesAux_nil]
      simp only [List.length_nil]
      rw [Nat.div_eq_of_lt (by omega)]
    | cons x t =>
      simp only [pyBatchesAux, List.length_cons]
      rw [ih ((x :: t).drop b)
        (by simp only [List.length_drop]; simp only [List.length_cons] at h ⊢; omega),
        List.length_drop]
      exact ceil_div_step b (x :: t).length hb (by simp)

lemma pyBatchesAux_sizes {α : Type} (b : Nat) :
    ∀ (fuel : Nat) (xs : List α) (c : List α), c ∈ pyBatchesAux fuel b xs → c.length ≤ b := by
  intro fuel
  induction fuel with
  | zero => intro xs c hc; simp [pyBatchesAux] at hc
  | succ n ih =>
    intro xs c hc
    cases xs with
    | nil => rw [pyBatchesAux_nil] at hc; simp at hc
    | cons x t =>
      simp only [pyBatchesAux, List.mem_cons] at hc
      rcases hc with hc | hc
      · subst hc
        simp [List.length_take]
      · exact ih _ c hc

lemma pyBatchesAux_full {α : Type} (b : Nat) (hb : 0 < b) :
    ∀ (fuel : Nat) (xs : List α), xs.length ≤ fuel →
      ∀ i, i + 1 < (pyBatchesAux fuel b xs).length →
        ∃ c, (pyBatchesAux fuel b xs)[i]? = some c ∧ c.length = b := by
  intro fuel
  induction fuel with
  | zero =>
    intro xs h i hi
    have hx : xs = [] := List.eq_nil_of_length_eq_zero (Nat.le_zero.mp h)
    subst hx
    simp [pyBatchesAux] at hi
  | succ n ih =>
    intro xs h i hi
    cases xs with
    | nil => rw [pyBatchesAux_nil] at hi; simp at hi
    | cons x t =>
      simp only [pyBatchesAux] at hi ⊢
      cases i with
      | zero =>
        refine ⟨(x :: t).take b, by simp, ?_⟩
        have hinner : 0 < (pyBatchesAux n b ((x :: t).drop b)).length := by
          simp only [List.length_cons] at hi
          omega
        have hdne : (x :: t).drop b ≠ [] := by
          intro hcon
          rw [hcon, pyBatchesAux_nil] at hinner
          simp at hinner
        have hblt : b < (x :: t).length := by
          by_contra hcon
          push_neg at hcon
          exact hdne (List.drop_eq_nil_of_le hcon)
        simp only [List.length_take]
        omega
      | succ j =>
        simp only [List.getElem?_cons_succ]
        apply ih ((x :: t).drop b)
          (by simp only [List.length_drop]; simp only [List.length_cons] at h ⊢; omega)
        simp only [List.length_cons] at hi
        omega

/-- C9: for a positive batch size b, batch_insert_ipeds issues exactly
ceil(n / b) executemany statements over the n accepted rows, the batches
concatenate back to the data in input order, every batch has at most b rows
and every batch except possibly the last has exactly b; in particular 10 rows
with batch size 3 give batches of sizes 3, 3, 3, 1 and committing the flushed
run leaves exactly 10 rows visible. -/
theorem C9_batch_flushing {α : Type} (b : Nat) (hb : 0 < b) (data : List α) :
    (pyBatches b data).length = (data.length + b - 1) / b ∧
    (pyBatches b data).flatten = data ∧
    (∀ c ∈ pyBatches b data, c.length ≤ b) ∧
    (∀ i, i + 1 < (pyBatches b data).length →
      ∃ c, (pyBatches b data)[i]? = some c ∧ c.length = b) ∧
    (pyBatches 3 (List.range 10)).map List.length = [3, 3, 3, 1] ∧
    (runTransaction ([] : List Nat)
      (flushWithFaults (fun _ => none) 0 (pyBatches 3 (List.range 10)))).1.length = 10 :=
  ⟨pyBatchesAux_length b hb data.length data le_rfl,
   pyBatchesAux_flatten b hb data.length data le_rfl,
   fun c hc => pyBatchesAux_sizes b data.length data c hc,
   fun i hi => pyBatchesAux_full b hb data.length data le_rfl i hi,
   by decide, by rfl⟩

/-- C9 witness: the batching contract applied at batch size 3 over 10 rows. -/
theorem C9_witness :
    (pyBatches 3 (List.range 10)).length = (10 + 3 - 1) / 3 ∧
    (pyBatches 3 (List.range 10)).flatten = List.range 10 :=
  ⟨((C9_batch_flushing 3 (by decide) (List.range 10)).1).trans (by decide),
   (C9_batch_flushing 3 (by decide) (List.range 10)).2.1⟩

/-- C10: when the CSV header lacks the ADDR column, load_ipeds_data raises
before the row loop, so the run rolls back with the ADDR configuration error,
both target tables keep their initial state, and the outcome is independent of
the rows in the file. -/
theorem C10_addr_header_precondition (existing : List Int)
    (initLoc : Int → Option (Option String))
    (initDir : List ((Int × Int) × List (Option String)))
    (header : List String) (rows rows2 : List (List (String × String))) (year : Int)
    (h : "ADDR" ∉ header) :
    load_ipeds_run existing initLoc initDir header rows year =
      (initLoc, initDir, 0, some "Error: ADDR column missing from CSV file.") ∧
    load_ipeds_run existing initLoc initDir header rows year =
      load_ipeds_run existing initLoc initDir header rows2 year := by
  constructor
  · simp only [load_ipeds_run, if_neg h]
  · simp only [load_ipeds_run, if_neg h]

/-- C10 witness: a header with every column except ADDR still rolls back. -/
theorem C10_witness :
    load_ipeds_run [1] (fun _ => none) []
      ["YEAR", "UNITID", "CBSA", "CBSATYPE", "CSA", "LATITUDE", "LONGITUD", "C21BASIC"]
      [[("UNITID", "1"), ("CBSA", "100")]] 2022 =
      ((fun _ => none), [], 0, some "Error: ADDR column missing from CSV file.") :=
  (C10_addr_header_precondition [1] (fun _ => none) []
    ["YEAR", "UNITID", "CBSA", "CBSATYPE", "CSA", "LATITUDE", "LONGITUD", "C21BASIC"]
    [[("UNITID", "1"), ("CBSA", "100")]] [] 2022 (by decide)).1

end CollegeScorecard
